import Mathlib

/-!
Verification of the quick-timer crate (src/lib.rs): a shallow embedding of
the two macros `timer!` (active under debug_assertions or the release_also
feature; otherwise inactive) and `timer_silent!`, together with proofs of
the specified properties.

The observable effects of an expansion are: reads of the monotonic clock
(std::time::Instant), lines printed to standard output (println!), and the
possibility that the wrapped block panics.  We model them with a `World`
state record threaded through every computation; a panic is an `Except.error`
that aborts the rest of the expansion while keeping the world as the block
left it (unwinding skips the remaining statements of the expansion).
-/

/-- The observable world: the monotonic clock (nanoseconds since an arbitrary
epoch, as read by std::time::Instant::now) and the lines emitted to standard
output so far. -/
structure World where
  clock : Nat
  stdout : List String
deriving Repr, DecidableEq

/-- A code block `$block`: a computation that may advance the clock (time
passes while it runs), print lines, and either return a value of type α or
panic with a value of type ε.  On panic the world records the effects the
block performed before failing. -/
abbrev Block (ε α : Type) := World → Except ε α × World

/-- std::time::Instant::now(): read the monotonic clock. -/
def Instant.now (w : World) : Nat := w.clock

/-- start.elapsed() as nanoseconds: the current clock minus the start
instant (Rust's Instant arithmetic saturates at zero, as Nat subtraction
does). -/
def Instant.elapsedNanos (start : Nat) (w : World) : Nat := w.clock - start

/-- Duration::as_millis(): whole milliseconds, truncating division of the
nanosecond count. -/
def Duration.as_millis (nanos : Nat) : Nat := nanos / 1000000

/-- The line printed by the active timer arm, translated from
println!("in {} line {} {}: {} ms", file!(), line, $tag, start.elapsed().as_millis()). -/
def formatLine (file : String) (line : Nat) (tag : String) (millis : Nat) : String :=
  "in " ++ file ++ " line " ++ toString line ++ " " ++ tag ++ ": " ++ toString millis ++ " ms"

/-- The body of the base arms of the active `timer!` macro
(cfg(any(debug_assertions, feature = "release_also")), src/lib.rs lines
146-172): capture the call-site line, capture a start instant, run the
block, print one formatted line, return the block's result.  `file` and
`line` are the call-site values of file!() and line!(). -/
def timer_active (file : String) (line : Nat) (tag : String)
    (block : Block ε α) : Block ε α :=
  fun w =>
    let start := Instant.now w
    match block w with
    | (Except.error e, w1) => (Except.error e, w1)
    | (Except.ok result, w1) =>
        (Except.ok result,
          { w1 with stdout := w1.stdout ++
              [formatLine file line tag (Duration.as_millis (Instant.elapsedNanos start w1))] })

/-- stringify!($tag) for an identifier tag: the identifier's text. -/
def stringifyIdent (tag : String) : String := tag

/-- The invocation forms of the `timer!` macro, one constructor per
macro_rules arm (the braceless forms wrap their token stream in a block, so
each form carries the resulting block). -/
inductive TimerForm (ε α : Type) where
  | tagLitBlock (tag : String) (block : Block ε α)
  | tagIdentBlock (tag : String) (block : Block ε α)
  | blockOnly (block : Block ε α)
  | shorthandLit (tag : String) (block : Block ε α)
  | shorthandIdent (tag : String) (block : Block ε α)
  | shorthandLitBraceless (tag : String) (block : Block ε α)
  | shorthandIdentBraceless (tag : String) (block : Block ε α)
  | bare (block : Block ε α)

/-- Number of delegation steps a form needs before reaching a base arm. -/
def TimerForm.rank : TimerForm ε α → Nat
  | .tagLitBlock _ _ => 0
  | .tagIdentBlock _ _ => 0
  | .blockOnly _ => 1
  | .shorthandLit _ _ => 1
  | .shorthandIdent _ _ => 1
  | .shorthandLitBraceless _ _ => 1
  | .shorthandIdentBraceless _ _ => 1
  | .bare _ => 2

/-- Number of delegation steps a form needs in the inactive macro, where
blockOnly is itself a base arm. -/
def TimerForm.rankInactive : TimerForm ε α → Nat
  | .tagLitBlock _ _ => 0
  | .tagIdentBlock _ _ => 0
  | .blockOnly _ => 0
  | .shorthandLit _ _ => 1
  | .shorthandIdent _ _ => 1
  | .shorthandLitBraceless _ _ => 1
  | .shorthandIdentBraceless _ _ => 1
  | .bare _ => 1

/-- The wrapped block of a form. -/
def TimerForm.blockOf : TimerForm ε α → Block ε α
  | .tagLitBlock _ b => b
  | .tagIdentBlock _ b => b
  | .blockOnly b => b
  | .shorthandLit _ b => b
  | .shorthandIdent _ b => b
  | .shorthandLitBraceless _ b => b
  | .shorthandIdentBraceless _ b => b
  | .bare b => b

/-- The tag text a form renders in the output line: the literal itself, the
stringified identifier, or the default "Timer". -/
def TimerForm.renderTag : TimerForm ε α → String
  | .tagLitBlock t _ => t
  | .tagIdentBlock t _ => stringifyIdent t
  | .blockOnly _ => "Timer"
  | .shorthandLit t _ => t
  | .shorthandIdent t _ => stringifyIdent t
  | .shorthandLitBraceless t _ => t
  | .shorthandIdentBraceless t _ => stringifyIdent t
  | .bare _ => "Timer"

/-- Expansion of the active `timer!` macro (src/lib.rs lines 144-203), arm
by arm: the two base arms expand to the timing body, every other arm
delegates to $crate::timer! exactly as the source does. -/
def timerExpandActive (file : String) (line : Nat) : TimerForm ε α → Block ε α
  | .tagLitBlock tag block => timer_active file line tag block
  | .tagIdentBlock tag block => timer_active file line (stringifyIdent tag) block
  | .blockOnly block => timerExpandActive file line (.tagLitBlock "Timer" block)
  | .shorthandLit tag block => timerExpandActive file line (.tagLitBlock tag block)
  | .shorthandIdent tag block => timerExpandActive file line (.tagIdentBlock tag block)
  | .shorthandLitBraceless tag block => timerExpandActive file line (.tagLitBlock tag block)
  | .shorthandIdentBraceless tag block => timerExpandActive file line (.tagIdentBlock tag block)
  | .bare block => timerExpandActive file line (.blockOnly block)
termination_by f => f.rank
decreasing_by all_goals simp [TimerForm.rank]

/-- Expansion of the inactive `timer!` macro
(cfg(not(any(debug_assertions, feature = "release_also"))), src/lib.rs
lines 257-300): the three base arms expand to the bare block, every other
arm delegates to $crate::timer!(block: ...) discarding the tag. -/
def timerExpandInactive : TimerForm ε α → Block ε α
  | .tagLitBlock _ block => block
  | .tagIdentBlock _ block => block
  | .blockOnly block => block
  | .shorthandLit _ block => timerExpandInactive (.blockOnly block)
  | .shorthandIdent _ block => timerExpandInactive (.blockOnly block)
  | .shorthandLitBraceless _ block => timerExpandInactive (.blockOnly block)
  | .shorthandIdentBraceless _ block => timerExpandInactive (.blockOnly block)
  | .bare block => timerExpandInactive (.blockOnly block)
termination_by f => f.rankInactive
decreasing_by all_goals simp [TimerForm.rankInactive]

/-- The body of the base arm of `timer_silent!` (src/lib.rs lines 340-344):
capture a start instant, run the block, return (result, start.elapsed())
with no output.  The duration is the elapsed nanosecond count. -/
def timer_silent_core (block : Block ε α) : Block ε (α × Nat) :=
  fun w =>
    let start := Instant.now w
    match block w with
    | (Except.error e, w1) => (Except.error e, w1)
    | (Except.ok result, w1) =>
        (Except.ok (result, Instant.elapsedNanos start w1), w1)

/-- The invocation forms of `timer_silent!`, one constructor per
macro_rules arm. -/
inductive SilentForm (ε α : Type) where
  | blockForm (block : Block ε α)
  | bareBlock (block : Block ε α)
  | bareTokens (block : Block ε α)

/-- The wrapped block of a `timer_silent!` form. -/
def SilentForm.blockOf : SilentForm ε α → Block ε α
  | .blockForm b => b
  | .bareBlock b => b
  | .bareTokens b => b

/-- Delegation depth of a `timer_silent!` form. -/
def SilentForm.rank : SilentForm ε α → Nat
  | .blockForm _ => 0
  | .bareBlock _ => 1
  | .bareTokens _ => 1

/-- Expansion of `timer_silent!` (src/lib.rs lines 339-353), arm by arm:
the base arm expands to the timing body, the other two delegate to
$crate::timer_silent!(block: ...). -/
def timerSilentExpand : SilentForm ε α → Block ε (α × Nat)
  | .blockForm block => timer_silent_core block
  | .bareBlock block => timerSilentExpand (.blockForm block)
  | .bareTokens block => timerSilentExpand (.blockForm block)
termination_by f => f.rank
decreasing_by all_goals simp [SilentForm.rank]

/-- Every active form expands to the timing core applied to its rendered
tag and its block. -/
theorem timerExpandActive_eq_core (file : String) (line : Nat)
    (f : TimerForm ε α) :
    timerExpandActive file line f = timer_active file line f.renderTag f.blockOf := by
  cases f <;>
    simp [timerExpandActive, TimerForm.renderTag, TimerForm.blockOf, stringifyIdent]

/-- Every inactive form expands to the bare block. -/
theorem timerExpandInactive_eq_block (f : TimerForm ε α) :
    timerExpandInactive f = f.blockOf := by
  cases f <;> simp [timerExpandInactive, TimerForm.blockOf]

/-- Every `timer_silent!` form expands to the silent timing core applied to
its block. -/
theorem timerSilentExpand_eq_core (g : SilentForm ε α) :
    timerSilentExpand g = timer_silent_core g.blockOf := by
  cases g <;> simp [timerSilentExpand, SilentForm.blockOf]

/-- A sample block used by the witnesses: returns 42, takes 25 ms of clock
time, prints one line of its own. -/
def okBlock : Block Unit Nat :=
  fun w => (Except.ok 42, { clock := w.clock + 25000000, stdout := w.stdout ++ ["x"] })

/-- A second sample block: returns 7, takes 3 ns, prints nothing. -/
def okBlockB : Block Unit Nat :=
  fun w => (Except.ok 7, { clock := w.clock + 3, stdout := w.stdout })

/-- A sample panicking block: fails immediately. -/
def errBlock : Block Unit Nat := fun w => (Except.error (), w)

/-- C1: with the reporting timer active, the expansion captures the start
instant at the call, runs the block exactly once, and returns the block's
result together with the block's final world extended by exactly one
standard-output line carrying the elapsed milliseconds measured after the
block completed. -/
theorem timer_active_reports (file : String) (line : Nat) (tag : String)
    (block : Block ε α) (w w1 : World) (a : α)
    (h : block w = (Except.ok a, w1)) :
    timer_active file line tag block w =
      (Except.ok a,
        { w1 with stdout := w1.stdout ++
            [formatLine file line tag (Duration.as_millis (w1.clock - w.clock))] }) := by
  simp [timer_active, Instant.now, Instant.elapsedNanos, h]

/-- Witness for C1 on a concrete block and world. -/
theorem timer_active_reports_witness :
    timer_active "src/main.rs" 3 "Timer" okBlock ⟨0, []⟩ =
      (Except.ok 42,
        { World.mk 25000000 ["x"] with stdout := ["x"] ++
            [formatLine "src/main.rs" 3 "Timer" (Duration.as_millis (25000000 - 0))] }) := by
  exact timer_active_reports "src/main.rs" 3 "Timer" okBlock ⟨0, []⟩ ⟨25000000, ["x"]⟩ 42 rfl

/-- C2: for every invocation form, the value returned by the timer! macro
equals the value the block itself produces, in the active build and in the
inactive build alike. -/
theorem timer_result_passthrough (file : String) (line : Nat)
    (f : TimerForm ε α) (w w1 : World) (a : α)
    (h : f.blockOf w = (Except.ok a, w1)) :
    (timerExpandActive file line f w).1 = Except.ok a ∧
    (timerExpandInactive f w).1 = Except.ok a := by
  rw [timerExpandActive_eq_core, timerExpandInactive_eq_block]
  constructor
  · simp [timer_active, h]
  · simp [h]

/-- Witness for C2 on a concrete form, block and world. -/
theorem timer_result_passthrough_witness :
    (timerExpandActive "src/main.rs" 9 (TimerForm.bare okBlock) ⟨5, []⟩).1 = Except.ok 42 ∧
    (timerExpandInactive (TimerForm.bare okBlock) ⟨5, []⟩).1 = Except.ok 42 := by
  exact timer_result_passthrough "src/main.rs" 9 (TimerForm.bare okBlock)
    ⟨5, []⟩ ⟨25000005, ["x"]⟩ 42 rfl

/-- C3: timer_silent! runs the block exactly once, adds no output of its
own (its final world is exactly the block's final world), and returns the
block's result paired with a non-negative elapsed duration; two successive
invocations measure independently, each duration non-negative. -/
theorem timer_silent_independent (b1 b2 : Block ε α) (w wa wb : World)
    (a1 a2 : α)
    (h1 : b1 w = (Except.ok a1, wa)) (h2 : b2 wa = (Except.ok a2, wb)) :
    timer_silent_core b1 w = (Except.ok (a1, wa.clock - w.clock), wa) ∧
    timer_silent_core b2 wa = (Except.ok (a2, wb.clock - wa.clock), wb) ∧
    0 ≤ wa.clock - w.clock ∧ 0 ≤ wb.clock - wa.clock := by
  refine ⟨?_, ?_, Nat.zero_le _, Nat.zero_le _⟩
  · simp [timer_silent_core, Instant.now, Instant.elapsedNanos, h1]
  · simp [timer_silent_core, Instant.now, Instant.elapsedNanos, h2]

/-- Witness for C3: two successive silent timings of concrete blocks. -/
theorem timer_silent_independent_witness :
    timer_silent_core okBlock ⟨0, []⟩ = (Except.ok (42, 25000000 - 0), ⟨25000000, ["x"]⟩) ∧
    timer_silent_core okBlockB ⟨25000000, ["x"]⟩ =
      (Except.ok (7, 25000003 - 25000000), ⟨25000003, ["x"]⟩) ∧
    0 ≤ 25000000 - 0 ∧ 0 ≤ 25000003 - 25000000 := by
  exact timer_silent_independent okBlock okBlockB ⟨0, []⟩ ⟨25000000, ["x"]⟩
    ⟨25000003, ["x"]⟩ 42 7 rfl rfl

/-- C4: the inactive timer! is observationally identical to the bare block:
every inactive form applied to any world is exactly the block applied to
that world — same result, same clock (no clock reads), same output (none
added). -/
theorem timer_inactive_transparent (f : TimerForm ε α) (w : World) :
    timerExpandInactive f w = f.blockOf w := by
  rw [timerExpandInactive_eq_block]

/-- C5: in the active case, the single emitted line is exactly
"in <file> line <line> <tag>: <ms> ms", with the call-site file and line,
and the millisecond field is a natural number (hence a non-negative,
non-fractional integer), the truncated elapsed milliseconds. -/
theorem timer_active_line_format (file : String) (line : Nat) (tag : String)
    (block : Block ε α) (w w1 : World) (a : α)
    (h : block w = (Except.ok a, w1)) :
    ∃ ms : Nat,
      ms = Duration.as_millis (w1.clock - w.clock) ∧
      timer_active file line tag block w =
        (Except.ok a,
          { w1 with stdout := w1.stdout ++
              ["in " ++ file ++ " line " ++ toString line ++ " " ++ tag ++ ": " ++
                toString ms ++ " ms"] }) := by
  refine ⟨Duration.as_millis (w1.clock - w.clock), rfl, ?_⟩
  simp [timer_active, Instant.now, Instant.elapsedNanos, formatLine, h]

/-- Witness for C5 on a concrete block and world. -/
theorem timer_active_line_format_witness :
    ∃ ms : Nat,
      ms = Duration.as_millis (25000000 - 0) ∧
      timer_active "src/main.rs" 7 "Calculation" okBlock ⟨0, []⟩ =
        (Except.ok 42,
          { World.mk 25000000 ["x"] with stdout := ["x"] ++
              ["in " ++ "src/main.rs" ++ " line " ++ toString 7 ++ " " ++ "Calculation" ++ ": " ++
                toString ms ++ " ms"] }) := by
  exact timer_active_line_format "src/main.rs" 7 "Calculation" okBlock
    ⟨0, []⟩ ⟨25000000, ["x"]⟩ 42 rfl

/-- C6: the reported milliseconds are the elapsed nanoseconds divided by
one million with truncation: whenever the block takes at least 10 ms of
clock time, the printed value is at least 10; the value is a natural number,
so never negative and never fractional. -/
theorem timer_active_truncates (file : String) (line : Nat) (tag : String)
    (block : Block ε α) (w w1 : World) (a : α)
    (h : block w = (Except.ok a, w1))
    (h10 : w.clock + 10 * 1000000 ≤ w1.clock) :
    timer_active file line tag block w =
      (Except.ok a,
        { w1 with stdout := w1.stdout ++
            [formatLine file line tag ((w1.clock - w.clock) / 1000000)] }) ∧
    Duration.as_millis (w1.clock - w.clock) = (w1.clock - w.clock) / 1000000 ∧
    10 ≤ (w1.clock - w.clock) / 1000000 := by
  refine ⟨?_, rfl, ?_⟩
  · simp [timer_active, Instant.now, Instant.elapsedNanos, Duration.as_millis, h]
  · have hle : 10 * 1000000 ≤ w1.clock - w.clock := by omega
    exact (Nat.le_div_iff_mul_le (by norm_num)).mpr hle

/-- Witness for C6: a concrete 25 ms block reports 25, which is at least 10. -/
theorem timer_active_truncates_witness :
    timer_active "src/main.rs" 11 "Timer" okBlock ⟨0, []⟩ =
      (Except.ok 42,
        { World.mk 25000000 ["x"] with stdout := ["x"] ++
            [formatLine "src/main.rs" 11 "Timer" ((25000000 - 0) / 1000000)] }) ∧
    Duration.as_millis (25000000 - 0) = (25000000 - 0) / 1000000 ∧
    10 ≤ (25000000 - 0) / 1000000 := by
  exact timer_active_truncates "src/main.rs" 11 "Timer" okBlock
    ⟨0, []⟩ ⟨25000000, ["x"]⟩ 42 rfl (by norm_num)

/-- C7: the active timer invoked with no tag renders the default tag, so
the one line it emits contains the substring "Timer:". -/
theorem timer_default_tag_output (file : String) (line : Nat)
    (block : Block ε α) (w w1 : World) (a : α)
    (h : block w = (Except.ok a, w1)) :
    ∃ pre post : String,
      timerExpandActive file line (TimerForm.blockOnly block) w =
        (Except.ok a,
          { w1 with stdout := w1.stdout ++ [pre ++ ("Timer:" ++ post)] }) := by
  refine ⟨"in " ++ file ++ " line " ++ toString line ++ " ",
    " " ++ toString (Duration.as_millis (w1.clock - w.clock)) ++ " ms", ?_⟩
  rw [timerExpandActive_eq_core]
  have hcore := timer_active_line_format file line "Timer" block w w1 a h
  obtain ⟨ms, hms, hrun⟩ := hcore
  rw [show (TimerForm.blockOnly block).renderTag = "Timer" from rfl,
    show (TimerForm.blockOnly block).blockOf = block from rfl, hrun, ← hms]
  have key : ("Timer:" : String) ++ " " = "Timer" ++ ": " := rfl
  simp only [String.append_assoc, ← key]

/-- Witness for C7 on a concrete block and world. -/
theorem timer_default_tag_output_witness :
    ∃ pre post : String,
      timerExpandActive "src/main.rs" 21 (TimerForm.blockOnly okBlock) ⟨0, []⟩ =
        (Except.ok 42,
          { World.mk 25000000 ["x"] with stdout := ["x"] ++ [pre ++ ("Timer:" ++ post)] }) := by
  exact timer_default_tag_output "src/main.rs" 21 okBlock ⟨0, []⟩ ⟨25000000, ["x"]⟩ 42 rfl

/-- C8: a panic inside the block propagates unmodified from the active
timer, the inactive timer and timer_silent!: each expansion returns the
very same error with the world exactly as the block left it — no timing
line is emitted and no duration is produced. -/
theorem timer_panic_propagates (file : String) (line : Nat) (tag : String)
    (block : Block ε α) (w w1 : World) (e : ε)
    (h : block w = (Except.error e, w1)) :
    timer_active file line tag block w = (Except.error e, w1) ∧
    timerExpandInactive (TimerForm.blockOnly block) w = (Except.error e, w1) ∧
    timer_silent_core block w = (Except.error e, w1) := by
  refine ⟨?_, ?_, ?_⟩
  · simp [timer_active, Instant.now, h]
  · rw [timerExpandInactive_eq_block]; exact h
  · simp [timer_silent_core, Instant.now, h]

/-- Witness for C8 on a concrete panicking block. -/
theorem timer_panic_propagates_witness :
    timer_active "src/main.rs" 30 "Timer" errBlock ⟨4, ["y"]⟩ = (Except.error (), ⟨4, ["y"]⟩) ∧
    timerExpandInactive (TimerForm.blockOnly errBlock) ⟨4, ["y"]⟩ = (Except.error (), ⟨4, ["y"]⟩) ∧
    timer_silent_core errBlock ⟨4, ["y"]⟩ = (Except.error (), ⟨4, ["y"]⟩) := by
  exact timer_panic_propagates "src/main.rs" 30 "Timer" errBlock ⟨4, ["y"]⟩ ⟨4, ["y"]⟩ () rfl

/-- C9: every invocation form normalizes to the single core expansion:
each active form equals the active timing core applied to its rendered tag
and block, each inactive form equals its bare block, and each
timer_silent! form equals the silent timing core applied to its block —
so forms with the same block and the same rendered tag text have
identical semantics. -/
theorem timer_forms_normalize (ε α : Type) :
    (∀ (file : String) (line : Nat) (f : TimerForm ε α),
      timerExpandActive file line f = timer_active file line f.renderTag f.blockOf) ∧
    (∀ f : TimerForm ε α, timerExpandInactive f = f.blockOf) ∧
    (∀ g : SilentForm ε α, timerSilentExpand g = timer_silent_core g.blockOf) :=
  ⟨fun file line f => timerExpandActive_eq_core file line f,
   fun f => timerExpandInactive_eq_block f,
   fun g => timerSilentExpand_eq_core g⟩

/-- C10: in the inactive build the tag is discarded by every arm, so for
any two tags and any block each tag-carrying form behaves identically:
same result and same (absent) output. -/
theorem timer_inactive_tag_independent (t1 t2 : String) (b : Block ε α) :
    timerExpandInactive (TimerForm.tagLitBlock t1 b) =
      timerExpandInactive (TimerForm.tagLitBlock t2 b) ∧
    timerExpandInactive (TimerForm.tagIdentBlock t1 b) =
      timerExpandInactive (TimerForm.tagIdentBlock t2 b) ∧
    timerExpandInactive (TimerForm.shorthandLit t1 b) =
      timerExpandInactive (TimerForm.shorthandLit t2 b) ∧
    timerExpandInactive (TimerForm.shorthandIdent t1 b) =
      timerExpandInactive (TimerForm.shorthandIdent t2 b) ∧
    timerExpandInactive (TimerForm.shorthandLitBraceless t1 b) =
      timerExpandInactive (TimerForm.shorthandLitBraceless t2 b) ∧
    timerExpandInactive (TimerForm.shorthandIdentBraceless t1 b) =
      timerExpandInactive (TimerForm.shorthandIdentBraceless t2 b) := by
  simp [timerExpandInactive_eq_block, TimerForm.blockOf]
